import Mathlib

/-!
Verification of the dslab discrete-event simulator (crates dslab-core and
dslab-async-mp) against its natural-language specification.

The Rust sources are shallowly embedded: `f64` time and probability values
become `ℚ`, hash maps and hash sets become association lists and membership
lists, interior mutability becomes explicit state passing, and `panic!` /
`assert!` become `Except String`.  Each definition mirrors the function of
the same name in the repository.
-/

namespace DSLab

/-- Insert into a hash set modelled as a duplicate-free list
(`HashSet::insert`). -/
def hsInsert {α : Type} [DecidableEq α] (l : List α) (a : α) : List α :=
  if a ∈ l then l else a :: l

/-- Remove from a hash set modelled as a list (`HashSet::remove`). -/
def hsRemove {α : Type} [DecidableEq α] (l : List α) (a : α) : List α :=
  l.filter (fun x => x ≠ a)

/-- Lookup in a hash map modelled as an association list (`HashMap::get`). -/
def alookup {α β : Type} [DecidableEq α] (l : List (α × β)) (a : α) : Option β :=
  (l.find? (fun p => p.1 = a)).map (·.2)

/-- Insert into a hash map modelled as an association list, replacing any
existing binding and returning the displaced value (`HashMap::insert`). -/
def ainsert {α β : Type} [DecidableEq α] (l : List (α × β)) (a : α) (b : β) :
    List (α × β) × Option β :=
  ((a, b) :: l.filter (fun p => p.1 ≠ a), alookup l a)

/-- Remove a binding from a hash map modelled as an association list,
returning the removed value (`HashMap::remove`). -/
def aremove {α β : Type} [DecidableEq α] (l : List (α × β)) (a : α) :
    List (α × β) × Option β :=
  (l.filter (fun p => p.1 ≠ a), alookup l a)

/-! ### Messages and per-process data (dslab-async-mp) -/

/-- `Message` from `network/message.rs`: a short type tag and an opaque body. -/
structure Message where
  tip : String
  data : String
deriving DecidableEq, Repr

/-- `ProcessData` from `process/data.rs`: the mutable cell shared by all
`Context` copies handed to one process.  Only the fields the verified
operations touch are carried. -/
structure ProcessData where
  process_name : String
  send_message_cnt : Nat
  received_message_cnt : Nat
  local_messages : List Message
  send_local_messages_count : Nat
  received_local_messages_count : Nat
deriving DecidableEq, Repr

/-- Record of the call `network.send_message(msg, from, dst)` made at the end
of `Context::send`. -/
structure NetSendCall where
  msg : Message
  src : String
  dst : String
deriving DecidableEq, Repr

/-- `Context::send` from `process/context.rs`.  Mirrors the source exactly:
the guard asserts the tip length, the local variable `to_self` is assigned
`process_name != dst_proc`, the counter is incremented when `!to_self`,
and the message is always forwarded to the network. -/
def Context.send (pd : ProcessData) (msg : Message) (dst_proc : String) :
    Except String (ProcessData × NetSendCall) :=
  if msg.tip.length > 50 then
    .error "Message type length exceeds the limit of 50 characters"
  else
    let to_self : Bool := pd.process_name ≠ dst_proc
    let pd' := if to_self = false then
        { pd with send_message_cnt := pd.send_message_cnt + 1 }
      else pd
    .ok (pd', ⟨msg, pd.process_name, dst_proc⟩)

/-- `Context::send_local` from `process/context.rs`: bump the sent-local
counter and push onto the process outbox. -/
def Context.send_local (pd : ProcessData) (msg : Message) : ProcessData :=
  { pd with
    send_local_messages_count := pd.send_local_messages_count + 1
    local_messages := pd.local_messages ++ [msg] }

/-- The counter-update part of `Context::send_with_ack_tagged` from
`process/context.rs`: the counter is incremented iff `from != dst_proc`. -/
def Context.send_with_ack_tagged_cnt (pd : ProcessData) (dst_proc : String) :
    ProcessData :=
  if pd.process_name ≠ dst_proc then
    { pd with send_message_cnt := pd.send_message_cnt + 1 }
  else pd

/-! ### Network model (`network/model.rs`) -/

/-- `Network` from `network/model.rs`.  `f64` delays and rates become `ℚ`;
`HashSet` fields become lists queried by membership; `ctx.id()` is the
`net_id` field. -/
structure Network where
  min_delay : ℚ
  max_delay : ℚ
  drop_rate : ℚ
  dupl_rate : ℚ
  corrupt_rate : ℚ
  node_ids : List (String × Nat)
  proc_locations : List (String × String)
  drop_incoming : List String
  drop_outgoing : List String
  disabled_links : List (String × String)
  network_message_count : Nat
  traffic : Nat
  next_event_id : Nat
  net_id : Nat
deriving DecidableEq, Repr

/-- `Network::message_is_dropped`: the uniform draw `ctx.rand()` is passed in
as `r`; the source evaluates the draw first, then the three set lookups. -/
def Network.message_is_dropped (net : Network) (r : ℚ) (src dst : String) : Bool :=
  decide (r < net.drop_rate)
    || decide (src ∈ net.drop_outgoing)
    || decide (dst ∈ net.drop_incoming)
    || decide ((src, dst) ∈ net.disabled_links)

/-- `Network::disconnect_node`: insert the node into both drop sets. -/
def Network.disconnect_node (net : Network) (node : String) : Network :=
  { net with
    drop_incoming := hsInsert net.drop_incoming node
    drop_outgoing := hsInsert net.drop_outgoing node }

/-- `Network::connect_node`: remove the node from both drop sets. -/
def Network.connect_node (net : Network) (node : String) : Network :=
  { net with
    drop_incoming := hsRemove net.drop_incoming node
    drop_outgoing := hsRemove net.drop_outgoing node }

/-- `Network::make_partition`: for every pair of nodes across the two groups,
insert both ordered pairs into the disabled-links set. -/
def Network.make_partition (net : Network) (group1 group2 : List String) : Network :=
  { net with
    disabled_links :=
      group1.foldl (fun acc n1 =>
        group2.foldl (fun acc n2 =>
          hsInsert (hsInsert acc (n1, n2)) (n2, n1)) acc)
      net.disabled_links }

/-- `Network::reset`: clear the disabled links and both per-node drop sets. -/
def Network.reset (net : Network) : Network :=
  { net with
    disabled_links := []
    drop_incoming := []
    drop_outgoing := [] }

/-- Payloads emitted by the network (`network/event.rs`). -/
inductive NetEventData where
  | messageDelivered (msg_id : Nat) (msg : Message)
      (src_proc src_node dst_proc dst_node : String)
  | taggedMessageDelivered (msg_id : Nat) (msg : Message)
      (src_proc src_node dst_proc dst_node : String) (tag : Nat)
  | messageDropped (msg_id : Nat) (msg : Message)
      (src_proc src_node dst_proc dst_node : String)
deriving DecidableEq, Repr

/-- One `ctx.emit_as(data, src, dst, delay)` call made by the network. -/
structure Emitted where
  data : NetEventData
  src : Nat
  dst : Nat
  delay : ℚ
deriving DecidableEq, Repr

/-- Whether an emitted event is a `MessageDropped`. -/
def Emitted.isDropped (e : Emitted) : Bool :=
  match e.data with
  | .messageDropped _ _ _ _ _ _ => true
  | _ => false

/-- `Network::send_message_with_ack` from `network/model.rs`.  The random
draws of `ctx.rand()` are consumed from the `tape` argument (at most one draw
occurs, for the delay).  Returns the updated network, the list of `emit_as`
calls in source order, and the returned `EventKey`.  `unwrap` on the map
lookups becomes an `Except.error`.  Note that the drop decision tests only
the two drop sets and the disabled links — it does not draw against
`drop_rate`. -/
def Network.send_message_with_ack (net : Network) (msg : Message)
    (src dst : String) (tag : Option Nat) (tape : List ℚ) :
    Except String (Network × List Emitted × Nat) := do
  let msg_size := msg.data.length
  let some src_node := alookup net.proc_locations src
    | .error "unknown location of src process"
  let some dst_node := alookup net.proc_locations dst
    | .error "unknown location of dst process"
  let event_id := net.next_event_id
  let event_key := event_id
  let some src_node_id := alookup net.node_ids src_node
    | .error "unknown src node"
  let some dst_node_id := alookup net.node_ids dst_node
    | .error "unknown dst node"
  let msg_dropped : Bool :=
    decide (src_node_id ≠ dst_node_id)
      && (decide (src_node ∈ net.drop_outgoing)
          || decide (dst_node ∈ net.drop_incoming)
          || decide ((src_node, dst_node) ∈ net.disabled_links))
  let r := tape.headD 0
  let emits : List Emitted :=
    if msg_dropped then
      let delay := net.min_delay + r * (net.max_delay - net.min_delay)
      [⟨.messageDropped event_id msg src src_node dst dst_node,
        net.net_id, src_node_id, delay⟩]
    else
      let msg_delay : ℚ :=
        if src_node_id = dst_node_id then 0
        else net.min_delay + 2 * r * (net.max_delay - net.min_delay)
      let ack : Emitted :=
        ⟨.messageDelivered event_id msg src src_node dst dst_node,
         net.net_id, src_node_id, msg_delay⟩
      match tag with
      | some t =>
          [ack, ⟨.taggedMessageDelivered event_id msg src src_node dst dst_node t,
                 src_node_id, dst_node_id, msg_delay⟩]
      | none =>
          [ack, ⟨.messageDelivered event_id msg src src_node dst dst_node,
                 src_node_id, dst_node_id, msg_delay⟩]
  let net' :=
    { net with
      next_event_id := net.next_event_id + 1
      network_message_count := net.network_message_count + 1
      traffic := net.traffic + msg_size }
  .ok (net', emits, event_key)

/-! ### Simulation kernel state (`dslab-core/src/state.rs`) -/

/-- Event payloads relevant to the verified operations: `interrupt` is
`StorageCrashedRequestInterrupt` from `storage/event.rs`, every other payload
is an abstract tag. -/
inductive SPayload where
  | interrupt (request_id : Nat)
  | plain (tag : Nat)
deriving DecidableEq, Repr

/-- `Event` from `dslab-core`: unique monotonic id, scheduled time, source
and destination component ids, payload. -/
structure SEvent where
  id : Nat
  time : ℚ
  src : Nat
  dst : Nat
  data : SPayload
deriving DecidableEq, Repr

/-- Modelled from the spec: `event.rs` with the `Ord` instance of `Event` is
not under `src/`; the spec orders events by `(time ascending, id ascending)`
and the binary heap pops the least event in this order.  `before a b` holds
when `a` is strictly earlier. -/
def SEvent.before (a b : SEvent) : Bool :=
  decide (a.time < b.time) || (decide (a.time = b.time) && decide (a.id < b.id))

/-- Least event of the heap (`BinaryHeap::peek` under the inverted order). -/
def heapMin : List SEvent → Option SEvent
  | [] => none
  | e :: es =>
    match heapMin es with
    | none => some e
    | some m => if SEvent.before m e then some m else some e

/-- Remove one occurrence of an event (`BinaryHeap::pop` of that event). -/
def heapRemove : List SEvent → SEvent → List SEvent
  | [], _ => []
  | x :: xs, e => if x = e then xs else x :: heapRemove xs e

theorem heapMin_mem : ∀ {l : List SEvent} {e : SEvent}, heapMin l = some e → e ∈ l := by
  intro l
  induction l with
  | nil => intro e h; simp [heapMin] at h
  | cons x xs ih =>
    intro e h
    simp only [heapMin] at h
    split at h
    · cases h; exact List.mem_cons_self _ _
    · rename_i m hm
      split at h
      · cases h; exact List.mem_cons_of_mem _ (ih hm)
      · cases h; exact List.mem_cons_self _ _

theorem heapRemove_length : ∀ {l : List SEvent} {e : SEvent}, e ∈ l →
    (heapRemove l e).length + 1 = l.length := by
  intro l
  induction l with
  | nil => intro e h; cases h
  | cons x xs ih =>
    intro e h
    simp only [heapRemove]
    by_cases hx : x = e
    · rw [if_pos hx]; rfl
    · rw [if_neg hx]
      rcases List.mem_cons.mp h with h1 | h2
      · exact absurd h1.symm hx
      · simp only [List.length_cons, ih h2]

/-- `SimulationState` from `dslab-core/src/state.rs`, restricted to the
fields the verified operations touch: the clock, the event heap, the
ordered-events deque, the cancel set and the event counter. -/
structure SimState where
  clock : ℚ
  events : List SEvent
  ordered_events : List SEvent
  canceled_events : List Nat
  event_count : Nat
deriving DecidableEq, Repr

/-- `EPSILON` from `dslab-core/src/state.rs`. -/
def EPSILON : ℚ := 1 / 10 ^ 12

/-- `SimulationState::set_time`. -/
def SimState.set_time (s : SimState) (t : ℚ) : SimState :=
  { s with clock := t }

/-- The accepted branch of `SimulationState::add_event`: build the event at
time `clock + delay.max(0.)`, push it and bump the counter. -/
def SimState.addEventCore (s : SimState) (data : SPayload) (src dst : Nat)
    (delay : ℚ) : SimState × Nat :=
  ({ s with
     events := s.events ++ [⟨s.event_count, s.clock + max delay 0, src, dst, data⟩]
     event_count := s.event_count + 1 }, s.event_count)

/-- `SimulationState::add_event`: the delay must satisfy
`delay >= -EPSILON`, otherwise the call panics and the state is unchanged. -/
def SimState.add_event (s : SimState) (data : SPayload) (src dst : Nat)
    (delay : ℚ) : Except String (SimState × Nat) :=
  if delay ≥ -EPSILON then
    .ok (s.addEventCore data src dst delay)
  else
    .error "Event delay is negative! It is not allowed to add events from the past."

/-- `SimulationState::cancel_events`: record the ids of all queued events
matching the predicate (from both queues) in the cancel set. -/
def SimState.cancel_events (s : SimState) (p : SEvent → Bool) : SimState :=
  { s with
    canceled_events :=
      ((s.events.filter p).map (·.id) ++ (s.ordered_events.filter p).map (·.id)).foldl
        hsInsert s.canceled_events }

/-- `SimulationContext::emit_self_now`: `add_event` with zero delay to the
owning component (zero delay never panics). -/
def SimState.emit_self_now (s : SimState) (data : SPayload) (owner : Nat) : SimState :=
  (s.addEventCore data owner owner 0).1

/-- `SimulationState::peek_event`: return the earliest pending event across
the two queues, lazily popping cancelled entries (each pop also removes the
id from the cancel set, as `HashSet::remove` does). -/
def peekEvent (s : SimState) : SimState × Option SEvent :=
  match hh : heapMin s.events with
  | some he =>
    match hd : s.ordered_events with
    | [] =>
      if he.id ∈ s.canceled_events then
        peekEvent { s with
          events := heapRemove s.events he
          canceled_events := hsRemove s.canceled_events he.id }
      else (s, some he)
    | de :: rest =>
      if SEvent.before he de then
        if he.id ∈ s.canceled_events then
          peekEvent { s with
            events := heapRemove s.events he
            canceled_events := hsRemove s.canceled_events he.id }
        else (s, some he)
      else
        if de.id ∈ s.canceled_events then
          peekEvent { s with
            ordered_events := rest
            canceled_events := hsRemove s.canceled_events de.id }
        else (s, some de)
  | none =>
    match hd : s.ordered_events with
    | [] => (s, none)
    | de :: rest =>
      if de.id ∈ s.canceled_events then
        peekEvent { s with
          ordered_events := rest
          canceled_events := hsRemove s.canceled_events de.id }
      else (s, some de)
termination_by s.events.length + s.ordered_events.length
decreasing_by
  all_goals first
    | (have hlen : (heapRemove s.events he).length + 1 = s.events.length :=
         heapRemove_length (heapMin_mem hh)
       omega)
    | (have hlen : s.ordered_events.length = rest.length + 1 := by rw [hd]; rfl
       omega)

/-- The loop of `Simulation::step_until_time`, with the body of `step()`
abstracted as `stepFn` and an explicit fuel bound (the Rust loop need not
terminate; `none` means the fuel ran out before the loop finished). -/
def stepUntilTimeAux (stepFn : SimState → SimState) (t : ℚ) :
    Nat → SimState → Option (SimState × Bool)
  | 0, _ => none
  | fuel + 1, s =>
    match peekEvent s with
    | (s1, some e) =>
      if t < e.time then some (s1.set_time t, true)
      else stepUntilTimeAux stepFn t fuel (stepFn s1)
    | (s1, none) => some (s1.set_time t, false)

/-- `Simulation::step_until_time`: loop while the earliest pending event is
at or before `t`, then set the clock exactly to `t`. -/
def Simulation.step_until_time (stepFn : SimState → SimState) (fuel : Nat)
    (t : ℚ) (s : SimState) : Option (SimState × Bool) :=
  stepUntilTimeAux stepFn t fuel s

/-- `Simulation::step_for_duration`: `step_until_time` at
`time() + duration`. -/
def Simulation.step_for_duration (stepFn : SimState → SimState) (fuel : Nat)
    (d : ℚ) (s : SimState) : Option (SimState × Bool) :=
  Simulation.step_until_time stepFn fuel (s.clock + d) s

/-! ### Storage (`dslab-async-mp/src/storage/model.rs`, `file_manager.rs`) -/

/-- Modelled from the spec: the throughput-model disk (crate `dslab-storage`)
is not under `src/`; the spec reduces it to its contract, of which the
verified operations use only `used_space()` and `mark_free(n)` ("mark the
disk's used space free in one shot"). -/
structure DiskModel where
  used_space : Nat
deriving DecidableEq, Repr

/-- Modelled from the spec: `mark_free(n)` frees `n` bytes of used space;
the callers `unwrap()` the result, so failure is a panic. -/
def DiskModel.mark_free (m : DiskModel) (n : Nat) : Except String DiskModel :=
  if n ≤ m.used_space then .ok ⟨m.used_space - n⟩
  else .error "mark_free exceeds used space"

/-- `ModelWrapper` from `storage/model.rs`: availability flag, disk model,
owner component id and the pending-request registry (a `BTreeSet`). -/
structure ModelWrapper where
  available : Bool
  model : DiskModel
  owner_id : Nat
  requests_registry : List Nat
deriving DecidableEq, Repr

/-- The interrupt events emitted by `ModelWrapper::crash`: one
`StorageCrashedRequestInterrupt` per pending request, self-addressed at the
current time, with consecutive fresh event ids starting at `start`. -/
def interruptEvents (clock : ℚ) (owner : Nat) : Nat → List Nat → List SEvent
  | _, [] => []
  | start, rid :: rest =>
      ⟨start, clock + max 0 0, owner, owner, .interrupt rid⟩
        :: interruptEvents clock owner (start + 1) rest

/-- `ModelWrapper::crash`: assert availability, cancel all pending events
destined for the owner component, emit one interrupt per registered request
(via `emit_self_now`), clear the registry and flip to unavailable. -/
def ModelWrapper.crash (w : ModelWrapper) (st : SimState) :
    Except String (ModelWrapper × SimState) :=
  if w.available = false then .error "trying to crash not available storage"
  else
    let st1 := st.cancel_events (fun e => decide (e.dst = w.owner_id))
    let st2 := w.requests_registry.foldl
      (fun acc rid => acc.emit_self_now (.interrupt rid) w.owner_id) st1
    .ok ({ w with requests_registry := [], available := false }, st2)

/-- `ModelWrapper::recover`: assert unavailability, free the whole used
space of the disk model and flip back to available. -/
def ModelWrapper.recover (w : ModelWrapper) : Except String ModelWrapper := do
  if w.available then .error "trying to recover not crashed storage"
  else
    let m' ← w.model.mark_free w.model.used_space
    .ok { w with model := m', available := true }

/-- `FileManager` from `storage/file_manager.rs`: file name → byte content
map and the model wrapper. -/
structure FileManager where
  files_content : List (String × List Nat)
  storage_wrapper : ModelWrapper
deriving DecidableEq, Repr

/-- `FileManager::crash_storage`: crash the wrapper; file contents are not
touched until recover. -/
def FileManager.crash_storage (fm : FileManager) (st : SimState) :
    Except String (FileManager × SimState) := do
  let (w', st') ← fm.storage_wrapper.crash st
  .ok ({ fm with storage_wrapper := w' }, st')

/-- `FileManager::recover_storage`: panic when the storage is available,
otherwise delete all files and recover the wrapper. -/
def FileManager.recover_storage (fm : FileManager) : Except String FileManager := do
  if fm.storage_wrapper.available then
    .error "trying to recover, but storage is not crashed"
  else
    let w' ← fm.storage_wrapper.recover
    .ok { files_content := [], storage_wrapper := w' }

/-! ### Node runtime (`dslab-async-mp/src/node/component.rs`) -/

/-- `State` from `node/component.rs`. -/
inductive NodeState where
  | running
  | shut
  | crashed
deriving DecidableEq, Repr

/-- `Node` from `node/component.rs`, restricted to the fields the verified
operations touch: the node name, the process map, the lifecycle state and
the file manager of its control block.  The network and the kernel state are
passed explicitly to the operations that touch them. -/
structure NodeC where
  name : String
  processes : List (String × ProcessData)
  state : NodeState
  fm : FileManager
deriving DecidableEq, Repr

/-- `Node::shutdown`: legal only in `Running`; moves to `Shut` and
disconnects the node from the network; panics in `Shut` and `Crashed`. -/
def NodeC.shutdown (n : NodeC) (net : Network) : Except String (NodeC × Network) :=
  match n.state with
  | .running => .ok ({ n with state := .shut }, net.disconnect_node n.name)
  | .shut => .error "trying to shutdown turned off node"
  | .crashed => .error "trying to shutdown crashed node"

/-- `Node::rerun`: legal only in `Shut`; clears the process map, moves to
`Running` and reconnects the node; panics otherwise. -/
def NodeC.rerun (n : NodeC) (net : Network) : Except String (NodeC × Network) :=
  match n.state with
  | .running => .error "trying to rerun running node"
  | .shut => .ok ({ n with processes := [], state := .running }, net.connect_node n.name)
  | .crashed => .error "trying to rerun crashed node"

/-- `Node::crash`: a no-op in `Crashed`; otherwise crashes the storage,
disconnects the node and moves to `Crashed`. -/
def NodeC.crash (n : NodeC) (net : Network) (st : SimState) :
    Except String (NodeC × Network × SimState) :=
  match n.state with
  | .crashed => .ok (n, net, st)
  | _ => do
      let (fm', st') ← n.fm.crash_storage st
      .ok ({ n with fm := fm', state := .crashed }, net.disconnect_node n.name, st')

/-- `Node::recover`: legal only in `Crashed`; clears the process map,
recovers the storage, reconnects the node and moves to `Running`; panics in
`Running` and `Shut`. -/
def NodeC.recover (n : NodeC) (net : Network) : Except String (NodeC × Network) :=
  match n.state with
  | .running => .error "trying to recover running node"
  | .shut => .error "trying to recover turned off, but not crashed node."
  | .crashed => do
      let fm' ← n.fm.recover_storage
      .ok ({ n with processes := [], fm := fm', state := .running },
           net.connect_node n.name)

/-- `Node::read_local_messages`: `unwrap` panics when the process is not
registered; returns `none` when the outbox is empty, otherwise drains the
whole outbox and returns it. -/
def NodeC.read_local_messages (n : NodeC) (proc : String) :
    Except String (NodeC × Option (List Message)) :=
  match alookup n.processes proc with
  | none => .error "no such process"
  | some pd =>
    if pd.local_messages.isEmpty then .ok (n, none)
    else
      .ok ({ n with processes :=
              (ainsert n.processes proc { pd with local_messages := [] }).1 },
           some pd.local_messages)


/-! ### Storage façade (`dslab-async-mp/src/storage.rs`) -/

/-- `State` from `storage.rs`. -/
inductive StorageState where
  | available
  | unavailable
deriving DecidableEq, Repr

/-- `ReadError` from `storage.rs`. -/
inductive RdError where
  | fileNotFound
  | unavailable
deriving DecidableEq, Repr

/-- `MAX_BUFFER_SIZE` from `storage.rs`: `1 << 30` (1 GiB). -/
def MAX_BUFFER_SIZE : Nat := 1 <<< 30

/-- `TYPICAL_READ_SIZE` from `storage.rs`: `2 * (1 << 20)` (2 MiB). -/
def TYPICAL_READ_SIZE : Nat := 2 * (1 <<< 20)

/-- `Storage` from `storage.rs`: file map and availability state (the disk
model is consulted only by the async completion path, not by `read`). -/
structure StorageRS where
  files : List (String × List Nat)
  state : StorageState
deriving DecidableEq, Repr

/-- `Storage::read` from `storage.rs`: the buffer is its length `buf_len`;
the result carries the number of copied bytes and the copied slice.  The
buffer-size guard panics (outer `Except.error`) before the state is
consulted; simulated failures are the inner `Except`. -/
def StorageRS.read (st : StorageRS) (file : String) (offset buf_len : Nat) :
    Except String (Except RdError (Nat × List Nat)) :=
  if buf_len > MAX_BUFFER_SIZE then
    .error "size of buffer exceeds max size"
  else
    match st.state with
    | .available =>
      match alookup st.files file with
      | none => .ok (.error .fileNotFound)
      | some content =>
        if offset ≥ content.length then .ok (.ok (0, []))
        else
          let copy_len := min (min buf_len (content.length - offset)) TYPICAL_READ_SIZE
          .ok (.ok (copy_len, (content.drop offset).take copy_len))
    | .unavailable => .ok (.error .unavailable)

/-! ### Awaiter table (`dslab-core/src/state.rs`) -/

/-- Modelled from the spec: `AwaitKey` lives in `async_core/shared_state.rs`
which is not under `src/`; the spec gives its shape as
`(dst_id, type_tag, optional correlation key)`. -/
structure AwaitKey where
  dst : Nat
  tip : Nat
  key : Option Nat
deriving DecidableEq, Repr

/-- Modelled from the spec: `Awaiter` and `is_shared()` live in
`async_core/awaiters.rs`, not under `src/`; an awaiter is *shared* while a
suspended task still holds its completion cell, and *consumed* afterwards.
Only that flag matters to `add_awaiter_handler`. -/
structure Awaiter where
  shared : Bool
deriving DecidableEq, Repr

/-- The two awaiter maps of `SimulationState`: source-less awaiters keyed by
`AwaitKey` and source-bound awaiters keyed by `(AwaitKey, src)`
(`AwaitersWithSourceStorage`, modelled from the spec as a map whose `insert`
returns the displaced awaiter). -/
structure AwaiterTables where
  awaiters : List (AwaitKey × Awaiter)
  awaiters_with_source : List ((AwaitKey × Nat) × Awaiter)
deriving DecidableEq, Repr

/-- Modelled from the spec: `has_any_shared_awaiter_on_key` returns the
source of some shared source-bound awaiter registered under the key. -/
def has_any_shared_awaiter_on_key
    (t : List ((AwaitKey × Nat) × Awaiter)) (k : AwaitKey) : Option Nat :=
  (t.find? (fun p => decide (p.1.1 = k) && p.2.shared)).map (fun p => p.1.2)

/-- The source-bound insertion step of `add_awaiter_handler`: insert into
`awaiters_with_source` and panic when the displaced awaiter was shared. -/
def insertWithSource (t : AwaiterTables) (key : AwaitKey) (src : Nat)
    (state : Awaiter) : Except String AwaiterTables :=
  let (m', old) := ainsert t.awaiters_with_source (key, src) state
  match old with
  | some aw =>
    if aw.shared then .error "awaiter for key and source already exists"
    else .ok { t with awaiters_with_source := m' }
  | none => .ok { t with awaiters_with_source := m' }

/-- `SimulationState::add_awaiter_handler` from `dslab-core/src/state.rs`. -/
def add_awaiter_handler (t : AwaiterTables) (key : AwaitKey)
    (src_opt : Option Nat) (state : Awaiter) : Except String AwaiterTables :=
  match src_opt with
  | some src =>
    match alookup t.awaiters key with
    | some aw =>
      if aw.shared then .error "awaiter for key (without source) already exists"
      else
        insertWithSource { t with awaiters := (aremove t.awaiters key).1 } key src state
    | none => insertWithSource t key src state
  | none =>
    match has_any_shared_awaiter_on_key t.awaiters_with_source key with
    | some _ => .error "awaiter for key with source already exists"
    | none =>
      let (m', old) := ainsert t.awaiters key state
      match old with
      | some aw =>
        if aw.shared then .error "awaiter for key (without source) already exists"
        else .ok { t with awaiters := m' }
      | none => .ok { t with awaiters := m' }

/-! ### Membership lemmas for the hash-set embedding -/

theorem mem_hsInsert_self {α : Type} [DecidableEq α] (l : List α) (a : α) :
    a ∈ hsInsert l a := by
  unfold hsInsert
  split
  · assumption
  · exact List.mem_cons_self a l

theorem mem_hsInsert_of_mem {α : Type} [DecidableEq α] {l : List α} {a : α}
    (b : α) (h : a ∈ l) : a ∈ hsInsert l b := by
  unfold hsInsert
  split
  · exact h
  · exact List.mem_cons_of_mem b h

theorem mem_foldl_of_insert_preserving {α β : Type} (f : List α → β → List α)
    (hf : ∀ acc b x, x ∈ acc → x ∈ f acc b) :
    ∀ (g : List β) (acc : List α) (x : α), x ∈ acc → x ∈ g.foldl f acc := by
  intro g
  induction g with
  | nil => intro acc x hx; simpa using hx
  | cons b g ih => intro acc x hx; exact ih _ _ (hf _ _ _ hx)

/-- The inner loop of `make_partition` over `group2` puts both ordered pairs
into the accumulator for every member of `group2`. -/
theorem mem_partition_inner (n1 : String) :
    ∀ (g2 : List String) (acc : List (String × String)) (n2 : String),
      n2 ∈ g2 →
      (n1, n2) ∈ g2.foldl (fun acc n2 => hsInsert (hsInsert acc (n1, n2)) (n2, n1)) acc
      ∧ (n2, n1) ∈ g2.foldl (fun acc n2 => hsInsert (hsInsert acc (n1, n2)) (n2, n1)) acc := by
  intro g2
  induction g2 with
  | nil => intro acc n2 h; cases h
  | cons c g2 ih =>
    intro acc n2 h
    rcases List.mem_cons.mp h with hc | hmem
    · subst hc
      constructor
      · exact mem_foldl_of_insert_preserving _
          (fun acc b x hx => mem_hsInsert_of_mem _ (mem_hsInsert_of_mem _ hx)) g2 _ _
          (mem_hsInsert_of_mem _ (mem_hsInsert_self _ _))
      · exact mem_foldl_of_insert_preserving _
          (fun acc b x hx => mem_hsInsert_of_mem _ (mem_hsInsert_of_mem _ hx)) g2 _ _
          (mem_hsInsert_self _ _)
    · exact ih _ _ hmem

/-- The nested fold of `make_partition` puts both ordered pairs of any
cross-group node pair into the accumulator. -/
theorem mem_partition_fold (g2 : List String) {n1 n2 : String} :
    ∀ (g1 : List String) (init : List (String × String)),
      n1 ∈ g1 → n2 ∈ g2 →
      (n1, n2) ∈ g1.foldl (fun acc n1 =>
          g2.foldl (fun acc n2 => hsInsert (hsInsert acc (n1, n2)) (n2, n1)) acc) init
      ∧ (n2, n1) ∈ g1.foldl (fun acc n1 =>
          g2.foldl (fun acc n2 => hsInsert (hsInsert acc (n1, n2)) (n2, n1)) acc) init := by
  intro g1
  induction g1 with
  | nil => intro init h1 _; cases h1
  | cons c g1 ih =>
    intro init h1 h2
    rcases List.mem_cons.mp h1 with hc | hmem
    · subst hc
      have base := mem_partition_inner n1 g2 init n2 h2
      rw [List.foldl_cons]
      constructor
      · exact mem_foldl_of_insert_preserving _
          (fun acc b x hx =>
            mem_foldl_of_insert_preserving _
              (fun acc b x hx => mem_hsInsert_of_mem _ (mem_hsInsert_of_mem _ hx))
              g2 _ _ hx) g1 _ _ base.1
      · exact mem_foldl_of_insert_preserving _
          (fun acc b x hx =>
            mem_foldl_of_insert_preserving _
              (fun acc b x hx => mem_hsInsert_of_mem _ (mem_hsInsert_of_mem _ hx))
              g2 _ _ hx) g1 _ _ base.2
    · rw [List.foldl_cons]; exact ih _ hmem h2

/-- After `make_partition`, both ordered pairs of any cross-group node pair
are in the disabled-links set. -/
theorem mem_partition_links (net : Network) (g1 g2 : List String)
    {n1 n2 : String} (h1 : n1 ∈ g1) (h2 : n2 ∈ g2) :
    (n1, n2) ∈ (net.make_partition g1 g2).disabled_links
    ∧ (n2, n1) ∈ (net.make_partition g1 g2).disabled_links :=
  mem_partition_fold g2 g1 net.disabled_links h1 h2

/-- Membership is preserved and created by folding `hsInsert` over a list. -/
theorem mem_foldl_hsInsert {α : Type} [DecidableEq α] :
    ∀ (l : List α) (base : List α) (x : α),
      (x ∈ base ∨ x ∈ l) → x ∈ l.foldl hsInsert base := by
  intro l
  induction l with
  | nil =>
    intro base x h
    rcases h with h | h
    · simpa using h
    · cases h
  | cons a l ih =>
    intro base x h
    rw [List.foldl_cons]
    rcases h with h | h
    · exact ih _ _ (Or.inl (mem_hsInsert_of_mem _ h))
    · rcases List.mem_cons.mp h with h | h
      · subst h; exact ih _ _ (Or.inl (mem_hsInsert_self _ _))
      · exact ih _ _ (Or.inr h)

/-- Unfolding the interrupt-emission fold of `ModelWrapper::crash`. -/
theorem emit_fold_eq (owner : Nat) :
    ∀ (reg : List Nat) (st : SimState),
      reg.foldl (fun acc rid => acc.emit_self_now (.interrupt rid) owner) st
        = { st with
            events := st.events ++ interruptEvents st.clock owner st.event_count reg
            event_count := st.event_count + reg.length } := by
  intro reg
  induction reg with
  | nil => intro st; simp [interruptEvents]
  | cons r rs ih =>
    intro st
    rw [List.foldl_cons, ih]
    simp only [SimState.emit_self_now, SimState.addEventCore, interruptEvents,
      List.append_assoc, List.singleton_append, List.length_cons]
    have hcnt : st.event_count + 1 + rs.length = st.event_count + (rs.length + 1) := by
      omega
    rw [hcnt]

/-- The payloads of the interrupt events are exactly one
`StorageCrashedRequestInterrupt` per registered request, in registry order. -/
theorem interruptEvents_data (clock : ℚ) (owner : Nat) :
    ∀ (start : Nat) (reg : List Nat),
      (interruptEvents clock owner start reg).map (fun e => e.data)
        = reg.map SPayload.interrupt := by
  intro start reg
  induction reg generalizing start with
  | nil => simp [interruptEvents]
  | cons r rs ih => simp [interruptEvents, ih]

theorem alookup_ainsert_self {α β : Type} [DecidableEq α]
    (l : List (α × β)) (a : α) (b : β) : alookup (ainsert l a b).1 a = some b := by
  simp [alookup, ainsert, List.find?]

theorem not_mem_hsRemove_self {α : Type} [DecidableEq α] (l : List α) (a : α) :
    a ∉ hsRemove l a := by
  simp [hsRemove]

end DSLab

/-- The concrete two-node network used to witness C9. -/
def C9net : DSLab.Network :=
  { min_delay := 1, max_delay := 1, drop_rate := 0, dupl_rate := 0,
    corrupt_rate := 0, node_ids := [("a", 1), ("b", 2)],
    proc_locations := [], drop_incoming := [], drop_outgoing := [],
    disabled_links := [], network_message_count := 0, traffic := 0,
    next_event_id := 0, net_id := 0 }

/-- The concrete network used to refute C4: two nodes, two processes,
`drop_rate = 1`, no drop flags, no disabled links. -/
def C4net : DSLab.Network :=
  { min_delay := 1, max_delay := 1, drop_rate := 1, dupl_rate := 0,
    corrupt_rate := 0, node_ids := [("n1", 1), ("n2", 2)],
    proc_locations := [("p1", "n1"), ("p2", "n2")],
    drop_incoming := [], drop_outgoing := [],
    disabled_links := [], network_message_count := 0, traffic := 0,
    next_event_id := 0, net_id := 0 }

/-- Concrete network for the C4 witness: link `("n1", "n2")` disabled. -/
def C4netW : DSLab.Network :=
  { min_delay := 1, max_delay := 1, drop_rate := 0, dupl_rate := 0,
    corrupt_rate := 0, node_ids := [("n1", 1), ("n2", 2)],
    proc_locations := [("p1", "n1"), ("p2", "n2")],
    drop_incoming := [], drop_outgoing := [],
    disabled_links := [("n1", "n2")], network_message_count := 0, traffic := 0,
    next_event_id := 0, net_id := 0 }

/-- Folding `send_local` over a list of messages appends them to the outbox
in order. -/
theorem send_local_foldl (msgs : List DSLab.Message) :
    ∀ pd : DSLab.ProcessData,
      (msgs.foldl DSLab.Context.send_local pd).local_messages
        = pd.local_messages ++ msgs := by
  induction msgs with
  | nil => intro pd; simp
  | cons m ms ih =>
    intro pd
    rw [List.foldl_cons, ih]
    simp [DSLab.Context.send_local]



/-! ### C1 -/

/-- C1: the claim says `Context::send(msg, dst)` increments the sending
process's `send_message_cnt` iff `dst` differs from the process's own name.
Evaluating the embedded source at the failing input shows the opposite: for
process `"p"` sending to `"q" ≠ "p"` the counter stays `0`, while sending to
itself (`"p"`) increments it to `1`; the message is forwarded to the network
in both cases.  This contradicts the claim (and the sibling
`send_with_ack_tagged`, which increments exactly when `from ≠ dst`), so the
code is the slip. -/
theorem C1_send_counter_code_bug :
    DSLab.Context.send ⟨"p", 0, 0, [], 0, 0⟩ ⟨"m", "d"⟩ "q" =
      .ok (⟨"p", 0, 0, [], 0, 0⟩, ⟨⟨"m", "d"⟩, "p", "q"⟩) ∧
    DSLab.Context.send ⟨"p", 0, 0, [], 0, 0⟩ ⟨"m", "d"⟩ "p" =
      .ok (⟨"p", 1, 0, [], 0, 0⟩, ⟨⟨"m", "d"⟩, "p", "p"⟩) ∧
    DSLab.Context.send_with_ack_tagged_cnt ⟨"p", 0, 0, [], 0, 0⟩ "q" =
      ⟨"p", 1, 0, [], 0, 0⟩ := by
  refine ⟨?_, ?_, ?_⟩ <;> rfl

/-! ### C9 -/

/-- C9: after `make_partition(g1, g2)` every cross-group message in either
direction is dropped (both ordered pairs are in the disabled-links set,
so `message_is_dropped` holds whatever the random draw), and a subsequent
`reset()` empties the disabled-links, drop-incoming and drop-outgoing sets,
after which a message is dropped only by the `drop_rate` draw, so delivery
is restored in both directions. -/
theorem C9_partition_symmetry_reset (net : DSLab.Network) (g1 g2 : List String)
    (n1 n2 : String) (h1 : n1 ∈ g1) (h2 : n2 ∈ g2) :
    (∀ r : ℚ, (net.make_partition g1 g2).message_is_dropped r n1 n2 = true
      ∧ (net.make_partition g1 g2).message_is_dropped r n2 n1 = true)
    ∧ (net.make_partition g1 g2).reset.disabled_links = []
    ∧ (net.make_partition g1 g2).reset.drop_incoming = []
    ∧ (net.make_partition g1 g2).reset.drop_outgoing = []
    ∧ (∀ (r : ℚ) (a b : String), ¬ r < net.drop_rate →
        (net.make_partition g1 g2).reset.message_is_dropped r a b = false) := by
  have hmem := DSLab.mem_partition_links net g1 g2 h1 h2
  refine ⟨fun r => ⟨?_, ?_⟩, rfl, rfl, rfl, fun r a b hr => ?_⟩
  · simp [DSLab.Network.message_is_dropped, hmem.1]
  · simp [DSLab.Network.message_is_dropped, hmem.2]
  · simp [DSLab.Network.message_is_dropped, DSLab.Network.reset,
      DSLab.Network.make_partition, hr]

/-- C9 witness: a concrete two-node network partitioned as `["a"]` vs
`["b"]`. -/
theorem C9_partition_symmetry_reset_witness :
    (C9net.make_partition ["a"] ["b"]).message_is_dropped (1/2) "a" "b" = true
    ∧ (C9net.make_partition ["a"] ["b"]).message_is_dropped (1/2) "b" "a" = true
    ∧ (C9net.make_partition ["a"] ["b"]).reset.disabled_links = []
    ∧ (C9net.make_partition ["a"] ["b"]).reset.message_is_dropped (1/2) "a" "b" = false := by
  have h := C9_partition_symmetry_reset C9net ["a"] ["b"] "a" "b" (by simp) (by simp)
  exact ⟨(h.1 (1/2)).1, (h.1 (1/2)).2, h.2.1,
    h.2.2.2.2 (1/2) "a" "b" (by norm_num [C9net])⟩

/-! ### C4 -/

/-- C4 counterexample: the claim says `send_message_with_ack` uses the same
fault model as the unreliable send, so with `drop_rate = 1` and a uniform
draw of `0 < 1` the message must be dropped and a `MessageDropped` emitted
back to the source.  On `C4net` the unreliable fault model
(`message_is_dropped`) indeed drops, but `send_message_with_ack` emits two
`MessageDelivered` events (the ack to the source node and the delivery to the
destination node) and no `MessageDropped`: the reliable path never consults
`drop_rate`. -/
theorem C4_counterexample :
    C4net.message_is_dropped 0 "n1" "n2" = true
    ∧ C4net.send_message_with_ack ⟨"m", "x"⟩ "p1" "p2" none [0] =
        .ok ({ C4net with
               next_event_id := 1
               network_message_count := 1
               traffic := 1 },
          [⟨.messageDelivered 0 ⟨"m", "x"⟩ "p1" "n1" "p2" "n2", 0, 1, 1⟩,
           ⟨.messageDelivered 0 ⟨"m", "x"⟩ "p1" "n1" "p2" "n2", 1, 2, 1⟩], 0)
    ∧ ([(⟨.messageDelivered 0 ⟨"m", "x"⟩ "p1" "n1" "p2" "n2", 0, 1, 1⟩ : DSLab.Emitted),
        ⟨.messageDelivered 0 ⟨"m", "x"⟩ "p1" "n1" "p2" "n2", 1, 2, 1⟩].all
          (fun e => !e.isDropped)) = true := by
  refine ⟨by norm_num [DSLab.Network.message_is_dropped, C4net], ?_, by decide⟩
  simp only [DSLab.Network.send_message_with_ack, C4net, DSLab.alookup, List.find?]
  norm_num
  rfl

/-- C4 (amended): for every cross-node reliable send (the source and
destination resolve to distinct node components), `send_message_with_ack`
drops the message if and only if the source node has `drop_outgoing` set, or
the destination node has `drop_incoming` set, or the `(src, dst)` link is
disabled — the `drop_rate` draw is not consulted on the reliable path.  On
drop a single `MessageDropped` event is emitted back to the source node
component; on success exactly one delivery event is addressed to the
destination node component (plus the ack `MessageDelivered` addressed to the
source component). -/
theorem C4_reliable_send_fault_model (net : DSLab.Network) (msg : DSLab.Message)
    (src dst : String) (tag : Option Nat) (tape : List ℚ)
    (src_node dst_node : String) (src_id dst_id : Nat)
    (hsrc : DSLab.alookup net.proc_locations src = some src_node)
    (hdst : DSLab.alookup net.proc_locations dst = some dst_node)
    (hsid : DSLab.alookup net.node_ids src_node = some src_id)
    (hdid : DSLab.alookup net.node_ids dst_node = some dst_id)
    (hcross : src_id ≠ dst_id) :
    (let dropped : Bool :=
       decide (src_node ∈ net.drop_outgoing)
         || decide (dst_node ∈ net.drop_incoming)
         || decide ((src_node, dst_node) ∈ net.disabled_links)
     let r := tape.headD 0
     let ack : DSLab.Emitted :=
       ⟨.messageDelivered net.next_event_id msg src src_node dst dst_node,
        net.net_id, src_id, net.min_delay + 2 * r * (net.max_delay - net.min_delay)⟩
     let second : DSLab.Emitted :=
       match tag with
       | some t =>
           ⟨.taggedMessageDelivered net.next_event_id msg src src_node dst dst_node t,
            src_id, dst_id, net.min_delay + 2 * r * (net.max_delay - net.min_delay)⟩
       | none =>
           ⟨.messageDelivered net.next_event_id msg src src_node dst dst_node,
            src_id, dst_id, net.min_delay + 2 * r * (net.max_delay - net.min_delay)⟩
     net.send_message_with_ack msg src dst tag tape =
       .ok ({ net with
              next_event_id := net.next_event_id + 1
              network_message_count := net.network_message_count + 1
              traffic := net.traffic + msg.data.length },
            (if dropped then
              [⟨.messageDropped net.next_event_id msg src src_node dst dst_node,
                net.net_id, src_id,
                net.min_delay + r * (net.max_delay - net.min_delay)⟩]
             else [ack, second]),
            net.next_event_id)
     ∧ (dropped = false →
         ([ack, second].filter (fun e => decide (e.dst = dst_id))) = [second])) := by
  intro dropped r ack second
  unfold DSLab.Network.send_message_with_ack
  simp only [hsrc, hdst, hsid, hdid]
  constructor
  · have hd : (decide (src_id ≠ dst_id)
        && (decide (src_node ∈ net.drop_outgoing)
            || decide (dst_node ∈ net.drop_incoming)
            || decide ((src_node, dst_node) ∈ net.disabled_links))) = dropped := by
      simp [dropped, hcross]
    rw [hd]
    by_cases h : dropped = true
    · rw [h]; simp only [if_true]
    · have h' : dropped = false := by
        cases hb : dropped
        · rfl
        · exact absurd hb h
      rw [h']
      simp only [Bool.false_eq_true, if_false, if_neg hcross]
      cases tag <;> rfl
  · intro hfalse
    have hack : (decide (ack.dst = dst_id)) = false := by
      simp [ack, hcross]
    have hsec : (decide (second.dst = dst_id)) = true := by
      cases tag <;> simp [second]
    simp [List.filter, hack, hsec]

/-- C4 witness: on `C4netW` the link `("n1","n2")` is disabled, so the
reliable send drops and a single `MessageDropped` is emitted back to the
source node component. -/
theorem C4_reliable_send_fault_model_witness :
    C4netW.send_message_with_ack ⟨"m", "x"⟩ "p1" "p2" none [0] =
      .ok ({ C4netW with
             next_event_id := 1
             network_message_count := 1
             traffic := 1 },
        [⟨.messageDropped 0 ⟨"m", "x"⟩ "p1" "n1" "p2" "n2", 0, 1, 1⟩], 0) := by
  have h := C4_reliable_send_fault_model C4netW ⟨"m", "x"⟩ "p1" "p2" none [0]
    "n1" "n2" 1 2 (by rfl) (by rfl) (by rfl) (by rfl) (by norm_num)
  have h1 := h.1
  simp only [List.headD] at h1
  rw [h1]
  norm_num [C4netW]
  rfl

/-! ### C6 -/

/-- C6: `step_until_time(t)` repeatedly performs `step()` while the earliest
non-cancelled pending event has time ≤ t (first three loop equations, stated
for every fuel), and whenever the loop finishes the final clock is exactly
`t` — for every `t`, including `t` below the current clock, since `set_time`
is unconditional; and `step_for_duration(d)` is exactly
`step_until_time(current time + d)`.  The body of `step()` is abstracted as
an arbitrary state transformer `stepFn`, so the statement covers the real
dispatcher. -/
theorem C6_step_until_time (stepFn : DSLab.SimState → DSLab.SimState) (t : ℚ) :
    (∀ fuel s s' r,
      DSLab.Simulation.step_until_time stepFn fuel t s = some (s', r) →
        s'.clock = t)
    ∧ (∀ fuel d s,
        DSLab.Simulation.step_for_duration stepFn fuel d s
          = DSLab.Simulation.step_until_time stepFn fuel (s.clock + d) s)
    ∧ (∀ fuel s s1 e, DSLab.peekEvent s = (s1, some e) → t < e.time →
        DSLab.Simulation.step_until_time stepFn (fuel + 1) t s
          = some (s1.set_time t, true))
    ∧ (∀ fuel s s1, DSLab.peekEvent s = (s1, none) →
        DSLab.Simulation.step_until_time stepFn (fuel + 1) t s
          = some (s1.set_time t, false))
    ∧ (∀ fuel s s1 e, DSLab.peekEvent s = (s1, some e) → ¬ t < e.time →
        DSLab.Simulation.step_until_time stepFn (fuel + 1) t s
          = DSLab.Simulation.step_until_time stepFn fuel t (stepFn s1)) := by
  refine ⟨?_, fun fuel d s => rfl, ?_, ?_, ?_⟩
  · intro fuel
    induction fuel with
    | zero =>
      intro s s' r h
      simp [DSLab.Simulation.step_until_time, DSLab.stepUntilTimeAux] at h
    | succ n ih =>
      intro s s' r h
      simp only [DSLab.Simulation.step_until_time, DSLab.stepUntilTimeAux] at h
      split at h
      · split at h
        · cases h; rfl
        · exact ih _ _ _ h
      · cases h; rfl
  · intro fuel s s1 e hpk ht
    simp only [DSLab.Simulation.step_until_time, DSLab.stepUntilTimeAux, hpk, if_pos ht]
  · intro fuel s s1 hpk
    simp only [DSLab.Simulation.step_until_time, DSLab.stepUntilTimeAux, hpk]
  · intro fuel s s1 e hpk ht
    simp only [DSLab.Simulation.step_until_time, DSLab.stepUntilTimeAux, hpk, if_neg ht]

/-- C6 witness: one pending event at time 1, target time `t = 2` strictly
below the current clock 5; the loop steps once (the step function drains the
queue) and the final clock is exactly 2. -/
theorem C6_step_until_time_witness :
    DSLab.Simulation.step_until_time
        (fun s => { s with events := [] }) 2 2
        ⟨5, [⟨0, 1, 0, 0, .plain 0⟩], [], [], 1⟩
      = some (⟨2, [], [], [], 1⟩, false)
    ∧ (⟨2, [], [], [], 1⟩ : DSLab.SimState).clock = 2 := by
  have hp1 : DSLab.peekEvent ⟨5, [⟨0, 1, 0, 0, .plain 0⟩], [], [], 1⟩
      = (⟨5, [⟨0, 1, 0, 0, .plain 0⟩], [], [], 1⟩, some ⟨0, 1, 0, 0, .plain 0⟩) := by
    rw [DSLab.peekEvent.eq_def]
    simp [DSLab.heapMin]
  have hp2 : DSLab.peekEvent ⟨5, [], [], [], 1⟩ = (⟨5, [], [], [], 1⟩, none) := by
    rw [DSLab.peekEvent.eq_def]
    simp [DSLab.heapMin]
  have hc := C6_step_until_time (fun s => { s with events := [] }) 2
  have hstep := hc.2.2.2.2 1 _ _ _ hp1 (by norm_num)
  have hfin := hc.2.2.2.1 0 _ _ hp2
  have heval : DSLab.Simulation.step_until_time
      (fun s => { s with events := [] }) 2 2
      ⟨5, [⟨0, 1, 0, 0, .plain 0⟩], [], [], 1⟩
      = some (⟨2, [], [], [], 1⟩, false) := by
    rw [hstep]
    exact hfin
  exact ⟨heval, hc.1 2 _ _ _ heval⟩

/-! ### C8 -/

/-- C8 counterexample: the claim says every negative delay panics, but
`add_event` accepts any delay `≥ -EPSILON`; the negative delay `-10⁻¹³`
is accepted and the event is enqueued at time `clock + 0`. -/
theorem C8_counterexample :
    DSLab.SimState.add_event ⟨0, [], [], [], 0⟩ (.plain 0) 0 0 (-(1 / 10 ^ 13)) =
      .ok (⟨0, [⟨0, 0, 0, 0, .plain 0⟩], [], [], 1⟩, 0) := by
  rw [DSLab.SimState.add_event, if_pos (by norm_num [DSLab.EPSILON])]
  simp only [DSLab.SimState.addEventCore]
  norm_num

/-- C8 (amended): `add_event` panics (leaving the queue unchanged) iff the
delay is below `-EPSILON` with `EPSILON = 10⁻¹²`; every delay `≥ -EPSILON`
is accepted and enqueued at time `clock + max(delay, 0)`, which is
`clock + delay` for delay ≥ 0 and is clamped to `clock` for the tolerated
slightly-negative delays. -/
theorem C8_add_event_negative_delay (s : DSLab.SimState) (data : DSLab.SPayload)
    (src dst : Nat) (d : ℚ) :
    (d < -DSLab.EPSILON →
      s.add_event data src dst d =
        .error "Event delay is negative! It is not allowed to add events from the past.")
    ∧ (-DSLab.EPSILON ≤ d →
        s.add_event data src dst d =
          .ok ({ s with
                 events := s.events ++ [⟨s.event_count, s.clock + max d 0, src, dst, data⟩]
                 event_count := s.event_count + 1 }, s.event_count))
    ∧ (0 ≤ d → s.clock + max d 0 = s.clock + d)
    ∧ (d < 0 → s.clock + max d 0 = s.clock) := by
  refine ⟨fun h => ?_, fun h => ?_, fun h => ?_, fun h => ?_⟩
  · rw [DSLab.SimState.add_event, if_neg (by simpa using not_le.mpr h)]
  · rw [DSLab.SimState.add_event, if_pos (by simpa using h)]
    rfl
  · rw [max_eq_left h]
  · rw [max_eq_right (le_of_lt h), add_zero]

/-- C8 witness: at delay `-10⁻¹³ ≥ -EPSILON` the event is accepted with time
clamped to the clock, and at delay `-1 < -EPSILON` the call panics. -/
theorem C8_add_event_negative_delay_witness :
    DSLab.SimState.add_event ⟨3, [], [], [], 0⟩ (.plain 0) 0 0 (-(1 / 10 ^ 13)) =
      .ok (⟨3, [⟨0, 3 + max (-(1 / 10 ^ 13)) 0, 0, 0, .plain 0⟩], [], [], 1⟩, 0)
    ∧ (3 : ℚ) + max (-(1 / 10 ^ 13)) 0 = 3
    ∧ DSLab.SimState.add_event ⟨3, [], [], [], 0⟩ (.plain 0) 0 0 (-1) =
        .error "Event delay is negative! It is not allowed to add events from the past." := by
  have h := C8_add_event_negative_delay ⟨3, [], [], [], 0⟩ (.plain 0) 0 0 (-(1 / 10 ^ 13))
  have h' := C8_add_event_negative_delay ⟨3, [], [], [], 0⟩ (.plain 0) 0 0 (-1)
  refine ⟨?_, ?_, h'.1 (by norm_num [DSLab.EPSILON])⟩
  · exact h.2.1 (by norm_num [DSLab.EPSILON])
  · exact h.2.2.2 (by norm_num)

/-! ### C3 -/

/-- C3: on an available storage, `crash_storage` flips the state to
unavailable, records in the cancel set the id of every pending event destined
for the owner component, appends exactly one `StorageCrashedRequestInterrupt`
event per request of the pending-request registry (self-addressed at the
current time), empties the registry, and leaves every file's byte content
unchanged; `recover_storage` panics when the storage is available, and
otherwise flips it back to available, removes all files and frees the disk
model's entire used space. -/
theorem C3_storage_crash_recover (fm : DSLab.FileManager) (st : DSLab.SimState) :
    (fm.storage_wrapper.available = true →
      fm.crash_storage st =
        .ok ({ files_content := fm.files_content
               storage_wrapper := { fm.storage_wrapper with
                                    available := false
                                    requests_registry := [] } },
             { st with
               canceled_events :=
                 (st.cancel_events
                   (fun e => decide (e.dst = fm.storage_wrapper.owner_id))).canceled_events
               events := st.events ++ DSLab.interruptEvents st.clock
                 fm.storage_wrapper.owner_id st.event_count
                 fm.storage_wrapper.requests_registry
               event_count :=
                 st.event_count + fm.storage_wrapper.requests_registry.length })
      ∧ (∀ e ∈ st.events, e.dst = fm.storage_wrapper.owner_id →
          e.id ∈ (st.cancel_events
            (fun e => decide (e.dst = fm.storage_wrapper.owner_id))).canceled_events)
      ∧ (∀ e ∈ st.ordered_events, e.dst = fm.storage_wrapper.owner_id →
          e.id ∈ (st.cancel_events
            (fun e => decide (e.dst = fm.storage_wrapper.owner_id))).canceled_events)
      ∧ (DSLab.interruptEvents st.clock fm.storage_wrapper.owner_id st.event_count
            fm.storage_wrapper.requests_registry).map (fun e => e.data)
          = fm.storage_wrapper.requests_registry.map DSLab.SPayload.interrupt)
    ∧ (fm.storage_wrapper.available = true →
        fm.recover_storage = .error "trying to recover, but storage is not crashed")
    ∧ (fm.storage_wrapper.available = false →
        fm.recover_storage =
          .ok { files_content := []
                storage_wrapper := { available := true, model := ⟨0⟩,
                                     owner_id := fm.storage_wrapper.owner_id,
                                     requests_registry := fm.storage_wrapper.requests_registry } }) := by
  refine ⟨fun hav => ⟨?_, ?_, ?_, DSLab.interruptEvents_data _ _ _ _⟩,
    fun hav => ?_, fun hav => ?_⟩
  · simp only [DSLab.FileManager.crash_storage, DSLab.ModelWrapper.crash, hav,
      Bool.true_eq_false, if_false]
    rw [DSLab.emit_fold_eq]
    rfl
  · intro e he hdst
    simp only [DSLab.SimState.cancel_events]
    exact DSLab.mem_foldl_hsInsert _ _ _ (Or.inr (List.mem_append.mpr (Or.inl
      (List.mem_map.mpr ⟨e, List.mem_filter.mpr ⟨he, by simp [hdst]⟩, rfl⟩))))
  · intro e he hdst
    simp only [DSLab.SimState.cancel_events]
    exact DSLab.mem_foldl_hsInsert _ _ _ (Or.inr (List.mem_append.mpr (Or.inr
      (List.mem_map.mpr ⟨e, List.mem_filter.mpr ⟨he, by simp [hdst]⟩, rfl⟩))))
  · simp only [DSLab.FileManager.recover_storage, hav, if_true]
  · simp only [DSLab.FileManager.recover_storage, DSLab.ModelWrapper.recover,
      DSLab.DiskModel.mark_free, hav, Bool.false_eq_true, if_false, le_refl,
      if_pos, Nat.sub_self]
    rfl

/-- C3 witness: a storage with two pending requests `[7, 9]` and one pending
owner-addressed event is crashed — the event id `0` is cancelled, two
interrupts are appended, the registry is cleared and the file survives; a
crashed storage with 10 used bytes recovers to an empty available storage
with 0 used bytes. -/
theorem C3_storage_crash_recover_witness :
    DSLab.FileManager.crash_storage
        ⟨[("f", [1, 2])], ⟨true, ⟨10⟩, 4, [7, 9]⟩⟩
        ⟨2, [⟨0, 1, 0, 4, .plain 0⟩, ⟨1, 1, 0, 5, .plain 0⟩], [], [], 2⟩
      = .ok (⟨[("f", [1, 2])], ⟨false, ⟨10⟩, 4, []⟩⟩,
             ⟨2, [⟨0, 1, 0, 4, .plain 0⟩, ⟨1, 1, 0, 5, .plain 0⟩,
                  ⟨2, 2, 4, 4, .interrupt 7⟩, ⟨3, 2, 4, 4, .interrupt 9⟩],
              [], [0], 4⟩)
    ∧ DSLab.FileManager.recover_storage ⟨[("f", [1, 2])], ⟨false, ⟨10⟩, 4, [7, 9]⟩⟩
      = .ok ⟨[], ⟨true, ⟨0⟩, 4, [7, 9]⟩⟩ := by
  have h := C3_storage_crash_recover
    ⟨[("f", [1, 2])], ⟨true, ⟨10⟩, 4, [7, 9]⟩⟩
    ⟨2, [⟨0, 1, 0, 4, .plain 0⟩, ⟨1, 1, 0, 5, .plain 0⟩], [], [], 2⟩
  have h2 := C3_storage_crash_recover
    ⟨[("f", [1, 2])], ⟨false, ⟨10⟩, 4, [7, 9]⟩⟩
    ⟨0, [], [], [], 0⟩
  refine ⟨?_, h2.2.2 rfl⟩
  rw [(h.1 rfl).1]
  norm_num [DSLab.SimState.cancel_events, DSLab.interruptEvents, DSLab.hsInsert]

/-! ### C2 -/

/-- C2: the node lifecycle transition table.  `shutdown` is legal only in
`Running` (moving to `Shut` with the node inserted into both network drop
sets) and panics in `Shut` or `Crashed`; `rerun` is legal only in `Shut`
(moving to `Running` with the process map cleared and the node removed from
both drop sets) and panics otherwise; `crash` moves `Running` or `Shut` to
`Crashed`, crashing the storage (which preserves the file contents) and
disconnecting the node, and is a no-op when already `Crashed`; `recover` is
legal only in `Crashed` (moving to `Running` with the process map cleared,
the storage recovered empty and available, and the node reconnected) and
panics in `Running` or `Shut`.  The storage-availability hypotheses hold in
every reachable node (crash is the only operation making the storage
unavailable and it also sets the node state to `Crashed`). -/
theorem C2_node_lifecycle (n : DSLab.NodeC) (net : DSLab.Network) (st : DSLab.SimState) :
    (n.state = .running →
      n.shutdown net = .ok ({ n with state := .shut }, net.disconnect_node n.name)
      ∧ n.name ∈ (net.disconnect_node n.name).drop_incoming
      ∧ n.name ∈ (net.disconnect_node n.name).drop_outgoing)
    ∧ (n.state = .shut → ∃ msg, n.shutdown net = .error msg)
    ∧ (n.state = .crashed → ∃ msg, n.shutdown net = .error msg)
    ∧ (n.state = .shut →
        n.rerun net
          = .ok ({ n with processes := [], state := .running }, net.connect_node n.name)
        ∧ n.name ∉ (net.connect_node n.name).drop_incoming
        ∧ n.name ∉ (net.connect_node n.name).drop_outgoing)
    ∧ (n.state = .running → ∃ msg, n.rerun net = .error msg)
    ∧ (n.state = .crashed → ∃ msg, n.rerun net = .error msg)
    ∧ (n.state = .crashed → n.crash net st = .ok (n, net, st))
    ∧ (n.state ≠ .crashed → n.fm.storage_wrapper.available = true →
        ∃ fm' st', n.fm.crash_storage st = .ok (fm', st')
          ∧ n.crash net st
              = .ok ({ n with fm := fm', state := .crashed },
                     net.disconnect_node n.name, st')
          ∧ fm'.storage_wrapper.available = false
          ∧ fm'.files_content = n.fm.files_content
          ∧ n.name ∈ (net.disconnect_node n.name).drop_incoming
          ∧ n.name ∈ (net.disconnect_node n.name).drop_outgoing)
    ∧ (n.state = .running → ∃ msg, n.recover net = .error msg)
    ∧ (n.state = .shut → ∃ msg, n.recover net = .error msg)
    ∧ (n.state = .crashed → n.fm.storage_wrapper.available = false →
        n.recover net
          = .ok ({ n with
                   processes := []
                   fm := ⟨[], ⟨true, ⟨0⟩, n.fm.storage_wrapper.owner_id,
                          n.fm.storage_wrapper.requests_registry⟩⟩
                   state := .running }, net.connect_node n.name)
        ∧ n.name ∉ (net.connect_node n.name).drop_incoming
        ∧ n.name ∉ (net.connect_node n.name).drop_outgoing) := by
  refine ⟨fun h => ⟨?_, DSLab.mem_hsInsert_self _ _, DSLab.mem_hsInsert_self _ _⟩,
    fun h => ⟨"trying to shutdown turned off node", ?_⟩,
    fun h => ⟨"trying to shutdown crashed node", ?_⟩,
    fun h => ⟨?_, DSLab.not_mem_hsRemove_self _ _, DSLab.not_mem_hsRemove_self _ _⟩,
    fun h => ⟨"trying to rerun running node", ?_⟩,
    fun h => ⟨"trying to rerun crashed node", ?_⟩,
    fun h => ?_, fun h hav => ?_,
    fun h => ⟨"trying to recover running node", ?_⟩,
    fun h => ⟨"trying to recover turned off, but not crashed node.", ?_⟩,
    fun h hav => ⟨?_, DSLab.not_mem_hsRemove_self _ _, DSLab.not_mem_hsRemove_self _ _⟩⟩
  · simp only [DSLab.NodeC.shutdown, h]
  · simp only [DSLab.NodeC.shutdown, h]
  · simp only [DSLab.NodeC.shutdown, h]
  · simp only [DSLab.NodeC.rerun, h]
  · simp only [DSLab.NodeC.rerun, h]
  · simp only [DSLab.NodeC.rerun, h]
  · simp only [DSLab.NodeC.crash, h]
  · refine ⟨{ files_content := n.fm.files_content
              storage_wrapper := { n.fm.storage_wrapper with
                                   available := false
                                   requests_registry := [] } },
      { st.cancel_events (fun e => decide (e.dst = n.fm.storage_wrapper.owner_id)) with
        events := st.events ++ DSLab.interruptEvents st.clock
          n.fm.storage_wrapper.owner_id st.event_count
          n.fm.storage_wrapper.requests_registry
        event_count :=
          st.event_count + n.fm.storage_wrapper.requests_registry.length },
      ?_, ?_, rfl, rfl, DSLab.mem_hsInsert_self _ _, DSLab.mem_hsInsert_self _ _⟩
    · simp only [DSLab.FileManager.crash_storage, DSLab.ModelWrapper.crash, hav,
        Bool.true_eq_false, if_false]
      rw [DSLab.emit_fold_eq]
      rfl
    · rcases hs : n.state with _ | _ | _
      · simp only [DSLab.NodeC.crash, hs, DSLab.FileManager.crash_storage,
          DSLab.ModelWrapper.crash, hav, Bool.true_eq_false, if_false]
        rw [DSLab.emit_fold_eq]
        rfl
      · simp only [DSLab.NodeC.crash, hs, DSLab.FileManager.crash_storage,
          DSLab.ModelWrapper.crash, hav, Bool.true_eq_false, if_false]
        rw [DSLab.emit_fold_eq]
        rfl
      · exact absurd hs h
  · simp only [DSLab.NodeC.recover, h]
  · simp only [DSLab.NodeC.recover, h]
  · simp only [DSLab.NodeC.recover, h, DSLab.FileManager.recover_storage,
      DSLab.ModelWrapper.recover, DSLab.DiskModel.mark_free, hav,
      Bool.false_eq_true, if_false, le_refl, if_pos, Nat.sub_self]
    rfl

/-- C2 witness: concrete nodes in each state exercising every legal
transition and a panic from each illegal one. -/
theorem C2_node_lifecycle_witness :
    (DSLab.NodeC.shutdown ⟨"nd", [], .running, ⟨[("f", [1])], ⟨true, ⟨5⟩, 4, []⟩⟩⟩
        ⟨1, 1, 0, 0, 0, [("nd", 1)], [], [], [], [], 0, 0, 0, 9⟩
      = .ok (⟨"nd", [], .shut, ⟨[("f", [1])], ⟨true, ⟨5⟩, 4, []⟩⟩⟩,
             DSLab.Network.disconnect_node
               ⟨1, 1, 0, 0, 0, [("nd", 1)], [], [], [], [], 0, 0, 0, 9⟩ "nd"))
    ∧ (∃ msg, DSLab.NodeC.shutdown
        ⟨"nd", [], .shut, ⟨[("f", [1])], ⟨true, ⟨5⟩, 4, []⟩⟩⟩
        ⟨1, 1, 0, 0, 0, [("nd", 1)], [], [], [], [], 0, 0, 0, 9⟩ = .error msg)
    ∧ DSLab.NodeC.rerun
        ⟨"nd", [("p", ⟨"p", 0, 0, [], 0, 0⟩)], .shut, ⟨[("f", [1])], ⟨true, ⟨5⟩, 4, []⟩⟩⟩
        ⟨1, 1, 0, 0, 0, [("nd", 1)], [], [], [], [], 0, 0, 0, 9⟩
      = .ok (⟨"nd", [], .running, ⟨[("f", [1])], ⟨true, ⟨5⟩, 4, []⟩⟩⟩,
             DSLab.Network.connect_node
               ⟨1, 1, 0, 0, 0, [("nd", 1)], [], [], [], [], 0, 0, 0, 9⟩ "nd")
    ∧ DSLab.NodeC.crash ⟨"nd", [], .crashed, ⟨[("f", [1])], ⟨false, ⟨5⟩, 4, []⟩⟩⟩
        ⟨1, 1, 0, 0, 0, [("nd", 1)], [], [], [], [], 0, 0, 0, 9⟩ ⟨0, [], [], [], 0⟩
      = .ok (⟨"nd", [], .crashed, ⟨[("f", [1])], ⟨false, ⟨5⟩, 4, []⟩⟩⟩,
             ⟨1, 1, 0, 0, 0, [("nd", 1)], [], [], [], [], 0, 0, 0, 9⟩,
             ⟨0, [], [], [], 0⟩)
    ∧ (∃ fm' st', DSLab.NodeC.crash
          ⟨"nd", [], .running, ⟨[("f", [1])], ⟨true, ⟨5⟩, 4, []⟩⟩⟩
          ⟨1, 1, 0, 0, 0, [("nd", 1)], [], [], [], [], 0, 0, 0, 9⟩ ⟨0, [], [], [], 0⟩
        = .ok (⟨"nd", [], .crashed, fm'⟩,
               DSLab.Network.disconnect_node
                 ⟨1, 1, 0, 0, 0, [("nd", 1)], [], [], [], [], 0, 0, 0, 9⟩ "nd", st')
        ∧ fm'.storage_wrapper.available = false
        ∧ fm'.files_content = [("f", [1])])
    ∧ DSLab.NodeC.recover
        ⟨"nd", [("p", ⟨"p", 0, 0, [], 0, 0⟩)], .crashed, ⟨[("f", [1])], ⟨false, ⟨5⟩, 4, []⟩⟩⟩
        ⟨1, 1, 0, 0, 0, [("nd", 1)], [], [], [], [], 0, 0, 0, 9⟩
      = .ok (⟨"nd", [], .running, ⟨[], ⟨true, ⟨0⟩, 4, []⟩⟩⟩,
             DSLab.Network.connect_node
               ⟨1, 1, 0, 0, 0, [("nd", 1)], [], [], [], [], 0, 0, 0, 9⟩ "nd")
    ∧ (∃ msg, DSLab.NodeC.recover
        ⟨"nd", [], .shut, ⟨[("f", [1])], ⟨true, ⟨5⟩, 4, []⟩⟩⟩
        ⟨1, 1, 0, 0, 0, [("nd", 1)], [], [], [], [], 0, 0, 0, 9⟩ = .error msg) := by
  have hR := C2_node_lifecycle
    ⟨"nd", [], .running, ⟨[("f", [1])], ⟨true, ⟨5⟩, 4, []⟩⟩⟩
    ⟨1, 1, 0, 0, 0, [("nd", 1)], [], [], [], [], 0, 0, 0, 9⟩ ⟨0, [], [], [], 0⟩
  have hS := C2_node_lifecycle
    ⟨"nd", [], .shut, ⟨[("f", [1])], ⟨true, ⟨5⟩, 4, []⟩⟩⟩
    ⟨1, 1, 0, 0, 0, [("nd", 1)], [], [], [], [], 0, 0, 0, 9⟩ ⟨0, [], [], [], 0⟩
  have hSp := C2_node_lifecycle
    ⟨"nd", [("p", ⟨"p", 0, 0, [], 0, 0⟩)], .shut, ⟨[("f", [1])], ⟨true, ⟨5⟩, 4, []⟩⟩⟩
    ⟨1, 1, 0, 0, 0, [("nd", 1)], [], [], [], [], 0, 0, 0, 9⟩ ⟨0, [], [], [], 0⟩
  have hC := C2_node_lifecycle
    ⟨"nd", [], .crashed, ⟨[("f", [1])], ⟨false, ⟨5⟩, 4, []⟩⟩⟩
    ⟨1, 1, 0, 0, 0, [("nd", 1)], [], [], [], [], 0, 0, 0, 9⟩ ⟨0, [], [], [], 0⟩
  have hCp := C2_node_lifecycle
    ⟨"nd", [("p", ⟨"p", 0, 0, [], 0, 0⟩)], .crashed, ⟨[("f", [1])], ⟨false, ⟨5⟩, 4, []⟩⟩⟩
    ⟨1, 1, 0, 0, 0, [("nd", 1)], [], [], [], [], 0, 0, 0, 9⟩ ⟨0, [], [], [], 0⟩
  refine ⟨(hR.1 rfl).1, hS.2.1 rfl, (hSp.2.2.2.1 rfl).1,
    hC.2.2.2.2.2.2.1 rfl, ?_, (hCp.2.2.2.2.2.2.2.2.2.2 rfl rfl).1,
    hS.2.2.2.2.2.2.2.2.2.1 rfl⟩
  obtain ⟨fm', st', _, h2, h3, h4, _⟩ :=
    hR.2.2.2.2.2.2.2.1 (by simp) rfl
  exact ⟨fm', st', h2, h3, h4⟩

/-! ### C10 -/

/-- C10: for a registered process, `read_local_messages` returns `none` iff
the outbox is empty; otherwise it returns all buffered local messages (in
`send_local` push order — the outbox after a sequence of `send_local` calls
is the previous outbox followed by the pushed messages) and leaves the
outbox empty, so a second call with no intervening `send_local` returns
`none`. -/
theorem C10_read_local_messages (n : DSLab.NodeC) (proc : String)
    (pd : DSLab.ProcessData) (hp : DSLab.alookup n.processes proc = some pd) :
    (pd.local_messages = [] → n.read_local_messages proc = .ok (n, none))
    ∧ (pd.local_messages ≠ [] →
        n.read_local_messages proc =
          .ok ({ n with processes :=
                  (DSLab.ainsert n.processes proc { pd with local_messages := [] }).1 },
               some pd.local_messages))
    ∧ DSLab.NodeC.read_local_messages
        { n with processes :=
            (DSLab.ainsert n.processes proc { pd with local_messages := [] }).1 } proc
        = .ok ({ n with processes :=
            (DSLab.ainsert n.processes proc { pd with local_messages := [] }).1 }, none)
    ∧ (∀ msgs : List DSLab.Message,
        (msgs.foldl DSLab.Context.send_local pd).local_messages
          = pd.local_messages ++ msgs) := by
  refine ⟨fun h => ?_, fun h => ?_, ?_, ?_⟩
  · simp [DSLab.NodeC.read_local_messages, hp, h]
  · simp [DSLab.NodeC.read_local_messages, hp, List.isEmpty_iff, h]
  · simp [DSLab.NodeC.read_local_messages, DSLab.alookup_ainsert_self]
  · intro msgs
    exact send_local_foldl msgs pd

/-- C10 witness: a process with two buffered messages; the first read drains
both in push order, the second read returns `none`, and pushing the two
messages by `send_local` produced exactly that order. -/
theorem C10_read_local_messages_witness :
    DSLab.NodeC.read_local_messages
        ⟨"nd", [("p", ⟨"p", 0, 0, [⟨"a", "1"⟩, ⟨"b", "2"⟩], 2, 0⟩)], .running,
         ⟨[], ⟨true, ⟨0⟩, 4, []⟩⟩⟩ "p"
      = .ok (⟨"nd", [("p", ⟨"p", 0, 0, [], 2, 0⟩)], .running,
             ⟨[], ⟨true, ⟨0⟩, 4, []⟩⟩⟩, some [⟨"a", "1"⟩, ⟨"b", "2"⟩])
    ∧ DSLab.NodeC.read_local_messages
        ⟨"nd", [("p", ⟨"p", 0, 0, [], 2, 0⟩)], .running, ⟨[], ⟨true, ⟨0⟩, 4, []⟩⟩⟩ "p"
      = .ok (⟨"nd", [("p", ⟨"p", 0, 0, [], 2, 0⟩)], .running,
             ⟨[], ⟨true, ⟨0⟩, 4, []⟩⟩⟩, none)
    ∧ ([⟨"a", "1"⟩, ⟨"b", "2"⟩].foldl DSLab.Context.send_local
        ⟨"p", 0, 0, [], 0, 0⟩).local_messages = [⟨"a", "1"⟩, ⟨"b", "2"⟩] := by
  have h := C10_read_local_messages
    ⟨"nd", [("p", ⟨"p", 0, 0, [⟨"a", "1"⟩, ⟨"b", "2"⟩], 2, 0⟩)], .running,
     ⟨[], ⟨true, ⟨0⟩, 4, []⟩⟩⟩ "p" ⟨"p", 0, 0, [⟨"a", "1"⟩, ⟨"b", "2"⟩], 2, 0⟩ rfl
  have h0 := C10_read_local_messages
    ⟨"nd", [("p", ⟨"p", 0, 0, [], 2, 0⟩)], .running, ⟨[], ⟨true, ⟨0⟩, 4, []⟩⟩⟩ "p"
    ⟨"p", 0, 0, [], 2, 0⟩ rfl
  have hpush := C10_read_local_messages
    ⟨"nd", [("p", ⟨"p", 0, 0, [], 0, 0⟩)], .running, ⟨[], ⟨true, ⟨0⟩, 4, []⟩⟩⟩ "p"
    ⟨"p", 0, 0, [], 0, 0⟩ rfl
  refine ⟨?_, h0.1 rfl, by simpa using hpush.2.2.2 [⟨"a", "1"⟩, ⟨"b", "2"⟩]⟩
  have h2 := h.2.1 (by simp)
  rw [h2]
  rfl

/-! ### C7 -/

/-- C7: for an available storage and an existing file, `read` returns
`Ok(0)` (copying nothing) when the offset is at or past the end of the
file, and otherwise copies and returns exactly
`min(buf.len(), file_length − offset, TYPICAL_READ_SIZE)` bytes, the copied
bytes being the corresponding slice of the file; a buffer larger than
`MAX_BUFFER_SIZE` is rejected with a panic regardless of storage state (the
guard precedes the state check).  `MAX_BUFFER_SIZE = 2^30` (1 GiB) and
`TYPICAL_READ_SIZE = 2·2^20` (2 MiB). -/
theorem C7_storage_read (st : DSLab.StorageRS) (file : String)
    (offset buf_len : Nat) (content : List Nat)
    (hav : st.state = .available)
    (hfile : DSLab.alookup st.files file = some content)
    (hbuf : buf_len ≤ DSLab.MAX_BUFFER_SIZE) :
    (offset ≥ content.length →
      st.read file offset buf_len = .ok (.ok (0, [])))
    ∧ (offset < content.length →
        st.read file offset buf_len =
          .ok (.ok (min (min buf_len (content.length - offset)) DSLab.TYPICAL_READ_SIZE,
            (content.drop offset).take
              (min (min buf_len (content.length - offset)) DSLab.TYPICAL_READ_SIZE))))
    ∧ (∀ (st2 : DSLab.StorageRS) (f2 : String) (o2 b2 : Nat),
        b2 > DSLab.MAX_BUFFER_SIZE →
          st2.read f2 o2 b2 = .error "size of buffer exceeds max size")
    ∧ DSLab.MAX_BUFFER_SIZE = 2 ^ 30
    ∧ DSLab.TYPICAL_READ_SIZE = 2 * 2 ^ 20 := by
  refine ⟨fun h => ?_, fun h => ?_, fun st2 f2 o2 b2 h => ?_, by decide, by decide⟩
  · simp [DSLab.StorageRS.read, hav, hfile, h, Nat.not_lt.mpr hbuf]
  · simp [DSLab.StorageRS.read, hav, hfile, Nat.not_le.mpr h, Nat.not_lt.mpr hbuf]
  · simp [DSLab.StorageRS.read, h]

/-- C7 witness: a five-byte file read at offset 1 with a two-byte buffer
copies bytes `[20, 30]`; reading at offset 7 returns 0 bytes; an oversized
buffer is rejected even on an unavailable storage. -/
theorem C7_storage_read_witness :
    DSLab.StorageRS.read ⟨[("f", [10, 20, 30, 40, 50])], .available⟩ "f" 1 2
      = .ok (.ok (2, [20, 30]))
    ∧ DSLab.StorageRS.read ⟨[("f", [10, 20, 30, 40, 50])], .available⟩ "f" 7 2
      = .ok (.ok (0, []))
    ∧ DSLab.StorageRS.read ⟨[("f", [10, 20, 30, 40, 50])], .unavailable⟩ "f" 0
        (DSLab.MAX_BUFFER_SIZE + 1)
      = .error "size of buffer exceeds max size" := by
  have h := C7_storage_read ⟨[("f", [10, 20, 30, 40, 50])], .available⟩ "f" 1 2
    [10, 20, 30, 40, 50] rfl rfl (by decide)
  have h7 := C7_storage_read ⟨[("f", [10, 20, 30, 40, 50])], .available⟩ "f" 7 2
    [10, 20, 30, 40, 50] rfl rfl (by decide)
  refine ⟨?_, h7.1 (by decide), h.2.2.1 _ _ _ _ (by decide)⟩
  rw [h.2.1 (by decide)]
  rfl

/-! ### C5 -/

/-- C5: the awaiter table never accepts two shared awaiters matching one
event.  Registering a source-less awaiter while a shared source-bound
awaiter exists for the key panics; registering a source-bound awaiter while
a shared source-less awaiter exists for the key panics; registering on top
of an existing shared awaiter in the same table (same key; same key and
source when source-bound) panics; consumed (non-shared) awaiters are
silently replaced (the consumed source-less entry is silently removed when a
source-bound awaiter is registered). -/
theorem C5_awaiter_table (t : DSLab.AwaiterTables) (key : DSLab.AwaitKey)
    (new : DSLab.Awaiter) :
    ((∃ e ∈ t.awaiters_with_source, e.1.1 = key ∧ e.2.shared = true) →
       ∃ msg, DSLab.add_awaiter_handler t key none new = .error msg)
    ∧ (∀ src aw, DSLab.alookup t.awaiters key = some aw → aw.shared = true →
        ∃ msg, DSLab.add_awaiter_handler t key (some src) new = .error msg)
    ∧ (∀ aw, DSLab.alookup t.awaiters key = some aw → aw.shared = true →
        ∃ msg, DSLab.add_awaiter_handler t key none new = .error msg)
    ∧ (∀ src aw, DSLab.alookup t.awaiters_with_source (key, src) = some aw →
        aw.shared = true →
        ∃ msg, DSLab.add_awaiter_handler t key (some src) new = .error msg)
    ∧ ((∀ e ∈ t.awaiters_with_source, e.1.1 = key → e.2.shared = false) →
        (∀ aw, DSLab.alookup t.awaiters key = some aw → aw.shared = false) →
        DSLab.add_awaiter_handler t key none new
          = .ok { t with awaiters := (DSLab.ainsert t.awaiters key new).1 })
    ∧ (∀ src, DSLab.alookup t.awaiters key = none →
        (∀ aw, DSLab.alookup t.awaiters_with_source (key, src) = some aw →
          aw.shared = false) →
        DSLab.add_awaiter_handler t key (some src) new
          = .ok { t with awaiters_with_source :=
                    (DSLab.ainsert t.awaiters_with_source (key, src) new).1 })
    ∧ (∀ src aw0, DSLab.alookup t.awaiters key = some aw0 → aw0.shared = false →
        (∀ aw, DSLab.alookup t.awaiters_with_source (key, src) = some aw →
          aw.shared = false) →
        DSLab.add_awaiter_handler t key (some src) new
          = .ok ⟨(DSLab.aremove t.awaiters key).1,
                 (DSLab.ainsert t.awaiters_with_source (key, src) new).1⟩) := by
  refine ⟨?_, ?_, ?_, ?_, ?_, ?_, ?_⟩
  · rintro ⟨e, he, hk, hsh⟩
    have hfind : (t.awaiters_with_source.find?
        (fun p => decide (p.1.1 = key) && p.2.shared)).isSome := by
      rw [List.find?_isSome]
      exact ⟨e, he, by simp [hk, hsh]⟩
    obtain ⟨p, hp⟩ := Option.isSome_iff_exists.mp hfind
    exact ⟨"awaiter for key with source already exists",
      by simp [DSLab.add_awaiter_handler, DSLab.has_any_shared_awaiter_on_key, hp]⟩
  · intro src aw hlk hsh
    exact ⟨"awaiter for key (without source) already exists",
      by simp [DSLab.add_awaiter_handler, hlk, hsh]⟩
  · intro aw hlk hsh
    cases hh : DSLab.has_any_shared_awaiter_on_key t.awaiters_with_source key with
    | some src =>
      exact ⟨"awaiter for key with source already exists",
        by simp [DSLab.add_awaiter_handler, hh]⟩
    | none =>
      exact ⟨"awaiter for key (without source) already exists",
        by simp [DSLab.add_awaiter_handler, hh, DSLab.ainsert, hlk, hsh]⟩
  · intro src aw hlk hsh
    cases hl : DSLab.alookup t.awaiters key with
    | some aw0 =>
      by_cases hsh0 : aw0.shared = true
      · exact ⟨"awaiter for key (without source) already exists",
          by simp [DSLab.add_awaiter_handler, hl, hsh0]⟩
      · refine ⟨"awaiter for key and source already exists", ?_⟩
        simp only [DSLab.add_awaiter_handler, hl, hsh0, Bool.false_eq_true, if_false,
          DSLab.insertWithSource, DSLab.ainsert, DSLab.aremove]
        simp [hlk, hsh]
    | none =>
      refine ⟨"awaiter for key and source already exists", ?_⟩
      simp only [DSLab.add_awaiter_handler, hl, DSLab.insertWithSource, DSLab.ainsert]
      simp [hlk, hsh]
  · intro hws hcons
    have hf : t.awaiters_with_source.find?
        (fun p => decide (p.1.1 = key) && p.2.shared) = none := by
      rw [List.find?_eq_none]
      intro p hp
      simp only [Bool.and_eq_true, decide_eq_true_eq, not_and]
      intro hk
      simp [hws p hp hk]
    have hh : DSLab.has_any_shared_awaiter_on_key t.awaiters_with_source key = none := by
      simp [DSLab.has_any_shared_awaiter_on_key, hf]
    cases hl : DSLab.alookup t.awaiters key with
    | some aw0 =>
      simp [DSLab.add_awaiter_handler, hh, DSLab.ainsert, hl, hcons aw0 hl]
    | none => simp [DSLab.add_awaiter_handler, hh, DSLab.ainsert, hl]
  · intro src hl hws
    cases hw : DSLab.alookup t.awaiters_with_source (key, src) with
    | some aw =>
      simp [DSLab.add_awaiter_handler, hl, DSLab.insertWithSource, DSLab.ainsert,
        hw, hws aw hw]
    | none =>
      simp [DSLab.add_awaiter_handler, hl, DSLab.insertWithSource, DSLab.ainsert, hw]
  · intro src aw0 hl hsh0 hws
    cases hw : DSLab.alookup t.awaiters_with_source (key, src) with
    | some aw =>
      simp [DSLab.add_awaiter_handler, hl, hsh0, DSLab.insertWithSource,
        DSLab.ainsert, DSLab.aremove, hw, hws aw hw]
    | none =>
      simp [DSLab.add_awaiter_handler, hl, hsh0, DSLab.insertWithSource,
        DSLab.ainsert, DSLab.aremove, hw]

/-- C5 witness: concrete tables over the key `⟨1, 2, some 3⟩` exercising
every panic and both silent replacements. -/
theorem C5_awaiter_table_witness :
    (∃ msg, DSLab.add_awaiter_handler ⟨[], [((⟨1, 2, some 3⟩, 7), ⟨true⟩)]⟩
        ⟨1, 2, some 3⟩ none ⟨true⟩ = .error msg)
    ∧ (∃ msg, DSLab.add_awaiter_handler ⟨[(⟨1, 2, some 3⟩, ⟨true⟩)], []⟩
        ⟨1, 2, some 3⟩ (some 7) ⟨true⟩ = .error msg)
    ∧ (∃ msg, DSLab.add_awaiter_handler ⟨[(⟨1, 2, some 3⟩, ⟨true⟩)], []⟩
        ⟨1, 2, some 3⟩ none ⟨false⟩ = .error msg)
    ∧ (∃ msg, DSLab.add_awaiter_handler ⟨[], [((⟨1, 2, some 3⟩, 7), ⟨true⟩)]⟩
        ⟨1, 2, some 3⟩ (some 7) ⟨true⟩ = .error msg)
    ∧ DSLab.add_awaiter_handler ⟨[(⟨1, 2, some 3⟩, ⟨false⟩)], []⟩
        ⟨1, 2, some 3⟩ none ⟨true⟩ = .ok ⟨[(⟨1, 2, some 3⟩, ⟨true⟩)], []⟩
    ∧ DSLab.add_awaiter_handler ⟨[], []⟩ ⟨1, 2, some 3⟩ (some 7) ⟨true⟩
        = .ok ⟨[], [((⟨1, 2, some 3⟩, 7), ⟨true⟩)]⟩
    ∧ DSLab.add_awaiter_handler ⟨[(⟨1, 2, some 3⟩, ⟨false⟩)], [((⟨1, 2, some 3⟩, 7), ⟨false⟩)]⟩
        ⟨1, 2, some 3⟩ (some 7) ⟨true⟩
        = .ok ⟨[], [((⟨1, 2, some 3⟩, 7), ⟨true⟩)]⟩ := by
  have h1 := C5_awaiter_table ⟨[], [((⟨1, 2, some 3⟩, 7), ⟨true⟩)]⟩ ⟨1, 2, some 3⟩ ⟨true⟩
  have h2 := C5_awaiter_table ⟨[(⟨1, 2, some 3⟩, ⟨true⟩)], []⟩ ⟨1, 2, some 3⟩ ⟨true⟩
  have h3 := C5_awaiter_table ⟨[(⟨1, 2, some 3⟩, ⟨true⟩)], []⟩ ⟨1, 2, some 3⟩ ⟨false⟩
  have h5 := C5_awaiter_table ⟨[(⟨1, 2, some 3⟩, ⟨false⟩)], []⟩ ⟨1, 2, some 3⟩ ⟨true⟩
  have h6 := C5_awaiter_table ⟨[], []⟩ ⟨1, 2, some 3⟩ ⟨true⟩
  have h7 := C5_awaiter_table
    ⟨[(⟨1, 2, some 3⟩, ⟨false⟩)], [((⟨1, 2, some 3⟩, 7), ⟨false⟩)]⟩ ⟨1, 2, some 3⟩ ⟨true⟩
  refine ⟨h1.1 ⟨((⟨1, 2, some 3⟩, 7), ⟨true⟩), by simp, rfl, rfl⟩,
    h2.2.1 7 ⟨true⟩ rfl rfl,
    h3.2.2.1 ⟨true⟩ rfl rfl,
    h1.2.2.2.1 7 ⟨true⟩ rfl rfl, ?_, ?_, ?_⟩
  · rw [h5.2.2.2.2.1 (by simp)
      (fun aw h => by rw [← Option.some.inj h])]
    rfl
  · rw [h6.2.2.2.2.2.1 7 rfl (fun aw h => nomatch h)]
    rfl
  · rw [h7.2.2.2.2.2.2 7 ⟨false⟩ rfl rfl
      (fun aw h => by rw [← Option.some.inj h])]
    rfl
